import Mathlib

/-!
Verification of the test-output interpretation and scoring engine of
`autograding-junit4` (`src/main.js`), as a shallow embedding in Lean.

Modelling conventions:
- JS strings are `List Char` (wrapped in `String` at the payload boundary).
- The specific regular expressions of `main.js` are hand-translated into
  deterministic scanning functions that implement exactly the JS semantics of
  each pattern (leftmost match, greedy `.*` capture with backtracking, `.`
  never matching a line terminator, `\s*` greedy, `/i` as ASCII
  case-insensitivity).  Bounded "fuel" arguments are set to `length + 1`,
  which is always sufficient because every step consumes at least one
  character.
- A thrown (uncaught) JS exception is modelled by `none`: the function
  produces no result payload at all.
- JS numbers are modelled as exact rationals; `(+x.toFixed(2))` is modelled
  by `round2`, rounding to 2 decimal places with ties toward +infinity,
  which is the ECMA-262 `toFixed` rule on the exact value.
- `btoa` (base64 transport encoding of the markdown body and of the final
  JSON) is injective and content-irrelevant to every property below, so it
  is modelled as the identity on the encoded text.
-/

/-- JS whitespace class `\s` (restricted to the ASCII characters that can
occur in runner output). -/
def isWs (c : Char) : Bool :=
  c == ' ' || c == '\t' || c == '\n' || c == '\r' || c == '\x0b' || c == '\x0c'

/-- Drop leading JS whitespace, as in the leading half of `String.trim`. -/
def trimL (l : List Char) : List Char := l.dropWhile isWs

/-- JS `String.prototype.trim`: drop leading and trailing whitespace. -/
def trimChars (l : List Char) : List Char := (trimL ((trimL l).reverse)).reverse

/-- Match a literal character sequence at the head of the input, returning
the rest of the input on success. -/
def stripLit : List Char → List Char → Option (List Char)
  | [], l => some l
  | _ :: _, [] => none
  | p :: ps, c :: cs => if c == p then stripLit ps cs else none

/-- Case-insensitive `stripLit` (for `/i` regexes); the pattern is given in
lowercase. -/
def stripLitCI : List Char → List Char → Option (List Char)
  | [], l => some l
  | _ :: _, [] => none
  | p :: ps, c :: cs => if c.toLower == p then stripLitCI ps cs else none

/-- Greedy `\s*`. -/
def wsDrop (l : List Char) : List Char := l.dropWhile isWs

/-- Line-terminator test: JS `.` matches anything except these. -/
def isNL (c : Char) : Bool := c == '\n' || c == '\r'

/-!
The summary-line regex of `main.js` lines 170 and 223:

  `/version\s*\d+\.\d+(\.\d+)\r?\n(.*?)(\r?\n|$)/g`

`re.exec` finds the leftmost match; group 2 is the marker ("dot") line.
Every adjacent pair of pieces in this pattern is over disjoint character
classes, so the greedy parts are deterministic.
-/

/-- Consume `\d+` (at least one digit, then all following digits). -/
def digits1 : List Char → Option (List Char)
  | c :: rest => if c.isDigit then some (rest.dropWhile Char.isDigit) else none
  | [] => none

/-- Match `version\s*\d+\.\d+(\.\d+)\r?\n` at the head of the input,
returning the input just after the newline. -/
def matchVersionAt (l : List Char) : Option (List Char) :=
  match stripLit (("version").data) l with
  | none => none
  | some l1 =>
    match digits1 (wsDrop l1) with
    | none => none
    | some l2 =>
      match l2 with
      | '.' :: l3 =>
        match digits1 l3 with
        | none => none
        | some l4 =>
          match l4 with
          | '.' :: l5 =>
            match digits1 l5 with
            | none => none
            | some l6 =>
              match l6 with
              | '\r' :: '\n' :: l7 => some l7
              | '\n' :: l7 => some l7
              | _ => none
          | _ => none
      | _ => none

/-- Match the tail `(.*?)(\r?\n|$)` of the summary regex: the lazy group
captures the following line.  A lone `\r` not followed by `\n` makes the
whole alternative fail (neither `$` nor `\r?\n` matches there). -/
def takeLine (l : List Char) : Option (List Char) :=
  let line := l.takeWhile (fun c => !isNL c)
  match l.drop line.length with
  | [] => some line
  | '\n' :: _ => some line
  | '\r' :: '\n' :: _ => some line
  | _ => none

/-- The exec scan for the summary regex: try every start position from the left
and return capture group 2 (the marker line) of the first match. -/
def execVersionRe : List Char → Option (List Char)
  | [] => none
  | c :: rest =>
    match matchVersionAt (c :: rest) with
    | some after =>
      match takeLine after with
      | some line => some line
      | none => execVersionRe rest
    | none => execVersionRe rest

/-- Lines 170-172 / 223-225 of `main.js`: `re.exec(...)` followed by
`match[2] || ''`.  When the regex does not match, `match` is `null` and
reading `match[2]` throws a `TypeError`, modelled by `none`. -/
def extractDots (l : List Char) : Option (List Char) := execVersionRe l

/-- Line 228, `dots.match(/\./g).length`: the number of pass glyphs. -/
def countDot (l : List Char) : Nat := l.countP (fun c => c == '.')

/-- Line 229, `dots.match(/E/gi).length`: the number of failure glyphs,
case-insensitive. -/
def countE (l : List Char) : Nat := l.countP (fun c => c == 'E' || c == 'e')

/-- Lines 223-229 of `main.js`: extract the marker line and count tests and
failures.  `String.prototype.match` with `/g` returns `null` when there is
no occurrence, so `.length` throws a `TypeError` when the marker line has
no `.` or no `E`; both throws are modelled by `none`. -/
def parseCounts (l : List Char) : Option (Nat × Nat) :=
  match extractDots l with
  | none => none
  | some dots =>
    if countDot dots = 0 then none
    else if countE dots = 0 then none
    else some (countDot dots, countE dots)

/-!
Failure-block splitting (`main.js` lines 259-260):

  `stdOut.split(/^\d+\).*$/m)` followed by `failures.shift()`

With the `m` flag, `^` matches at the start of the input and right after a
line terminator, and `.*$` runs to the end of the line.
-/

/-- Try to match `\d+\).*$` at a line-start position; on success return the
rest of the input (starting at the line terminator, which the match does
not consume). -/
def headerMatch (l : List Char) : Option (List Char) :=
  match l with
  | c :: rest =>
    if c.isDigit then
      match rest.dropWhile Char.isDigit with
      | ')' :: r2 => some (r2.dropWhile (fun ch => !isNL ch))
      | _ => none
    else none
  | [] => none

/-- Split on the failure-block-header regex.  `atStart` tracks whether the
current position is a `^` position; the fuel `length + 1` is always
sufficient because every step consumes at least one character. -/
def splitHeadersAux : Nat → Bool → List Char → List Char → List (List Char)
  | _, _, acc, [] => [acc.reverse]
  | 0, _, acc, l => [acc.reverse ++ l]
  | fuel + 1, atStart, acc, c :: rest =>
    if atStart then
      match headerMatch (c :: rest) with
      | some after => acc.reverse :: splitHeadersAux fuel false [] after
      | none => splitHeadersAux fuel (isNL c) (c :: acc) rest
    else splitHeadersAux fuel (isNL c) (c :: acc) rest

/-- The split `stdOut.split(/^\d+\).*$/m)`. -/
def splitHeaders (l : List Char) : List (List Char) :=
  splitHeadersAux (l.length + 1) true [] l

/-!
Failure classification (`main.js` lines 262-303).

The weak shape test (line 264) and the capturing pattern (line 266):

  `/expected\s*:\s*<(.*)>\s*but was\s*:\s*<(.*)>/g`
  `/(AssertionError|ComparisonFailure):(.*)expected\s*:\s*<(.*)>\s*but was\s*:\s*<(.*)>/g`

The greedy `(.*)` groups are implemented by trying the longest single-line
capture first and backtracking toward shorter ones, exactly as the JS
engine resolves them.
-/

/-- Greedy single-line capture: find the longest prefix of the current line
such that the continuation matches the rest, trying candidates from longest
to shortest. -/
def greedyAux (line rest : List Char) (cont : List Char → Option α) :
    Nat → Option (List Char × α)
  | 0 =>
    match cont (line ++ rest) with
    | some a => some ([], a)
    | none => none
  | k + 1 =>
    match cont (line.drop (k + 1) ++ rest) with
    | some a => some (line.take (k + 1), a)
    | none => greedyAux line rest cont k

/-- Greedy `(.*)` followed by a continuation matcher. -/
def greedyDot (cont : List Char → Option α) (l : List Char) :
    Option (List Char × α) :=
  let line := l.takeWhile (fun c => !isNL c)
  greedyAux line (l.drop line.length) cont line.length

/-- Tail `>\s*but was\s*:\s*<(.*)>` after the first capture: returns the
second capture and the rest of the input after the match. -/
def afterG3 (l : List Char) : Option (List Char × List Char) :=
  match l with
  | '>' :: l1 =>
    match stripLit (("but was").data) (wsDrop l1) with
    | none => none
    | some l2 =>
      match wsDrop l2 with
      | ':' :: l3 =>
        match wsDrop l3 with
        | '<' :: l4 =>
          greedyDot (fun r => match r with
            | '>' :: r1 => some r1
            | _ => none) l4
        | _ => none
      | _ => none
  | _ => none

/-- Match `expected\s*:\s*<(.*)>\s*but was\s*:\s*<(.*)>` at the head of the
input, returning both captures and the rest after the match. -/
def expectTail (l : List Char) : Option (List Char × List Char × List Char) :=
  match stripLit (("expected").data) l with
  | none => none
  | some l1 =>
    match wsDrop l1 with
    | ':' :: l2 =>
      match wsDrop l2 with
      | '<' :: l3 =>
        match greedyDot afterG3 l3 with
        | some (g1, (g2, rest)) => some (g1, g2, rest)
        | none => none
      | _ => none
    | _ => none

/-- Line 264: `failure.match(/expected\s*:\s*<(.*)>\s*but was\s*:\s*<(.*)>/g)`
is truthy iff the pattern matches somewhere. -/
def hasWeak : List Char → Bool
  | [] => false
  | c :: rest => (expectTail (c :: rest)).isSome || hasWeak rest

/-- One match of the capturing classifier pattern. -/
structure SCap where
  g2 : List Char
  g3 : List Char
  g4 : List Char
deriving DecidableEq, Repr

/-- Match the capturing pattern at the head of the input.  The alternation
`(AssertionError|ComparisonFailure)` is deterministic (the alternatives
start with different letters); the greedy `(.*)` before `expected` prefers
the longest capture. -/
def strongAt (l : List Char) : Option (SCap × List Char) :=
  match (match stripLit (("AssertionError").data) l with
         | some r => some r
         | none => stripLit (("ComparisonFailure").data) l) with
  | none => none
  | some l1 =>
    match l1 with
    | ':' :: l2 =>
      match greedyDot expectTail l2 with
      | some (g2, (g3, g4, rest)) => some (⟨g2, g3, g4⟩, rest)
      | none => none
    | _ => none

/-- The matchAll scan of the capturing pattern: scan left to right, resuming after
the end of each match.  Every step consumes at least one character, so fuel
`length + 1` is always sufficient. -/
def matchAllStrongF : Nat → List Char → List SCap
  | 0, _ => []
  | _, [] => []
  | fuel + 1, c :: rest =>
    match strongAt (c :: rest) with
    | some (cap, after) => cap :: matchAllStrongF fuel after
    | none => matchAllStrongF fuel rest

/-- All matches of the capturing classifier pattern, in textual order. -/
def matchAllStrong (l : List Char) : List SCap :=
  matchAllStrongF (l.length + 1) l

/-- A row pushed to the failure tables: a structured row carries the
message cell and the raw `expected`/`actual` captures; a spanning row is a
single cell across all three columns. -/
inductive Row where
  | structured (message expected actual : List Char)
  | spanning (content : List Char)
deriving DecidableEq, Repr

/-- Lines 269-270: `match[2] = match[2].trim() || ''` then
`match[2] || 'Test failed'`. -/
def msgOrDefault (g2 : List Char) : List Char :=
  let m := trimChars g2
  if m = [] then ("Test failed").data else m

/-- JS `split('\n')[0]`: everything up to the first `'\n'`. -/
def firstSegment (l : List Char) : List Char := l.takeWhile (fun c => !(c == '\n'))

/-- JS `String.prototype.replace` with a non-global regex and empty
replacement: excise the leftmost match, leave everything else unchanged. -/
def replaceFirst (m : List Char → Option (List Char)) : List Char → List Char
  | [] => []
  | c :: rest =>
    match m (c :: rest) with
    | some after => after
    | none => c :: replaceFirst m rest

/-- Match `/java\.lang\.(.*):/i` at the head of the input: the literal
`java.lang.` (case-insensitive) and a greedy capture up to the last `:` on
the line; returns the rest after the match. -/
def jlMatch (l : List Char) : Option (List Char) :=
  match stripLitCI (("java.lang.").data) l with
  | none => none
  | some l1 =>
    match greedyDot (fun r => match r with
      | ':' :: r1 => some r1
      | _ => none) l1 with
    | some (_, rest) => some rest
    | none => none

/-- Match `/org\.junit\.runners\.model\.TestTimedOutException:/i` at the
head of the input. -/
def ttoMatch (l : List Char) : Option (List Char) :=
  stripLitCI (("org.junit.runners.model.testtimedoutexception:").data) l

/-- Lines 284-293: fallback message of an unstructured failure block: the
first line of the trimmed block, trimmed, then each replacement regex
applied in order with a trim after each. -/
def fallbackMsg (failure : List Char) : List Char :=
  let m0 := trimChars (firstSegment (trimChars failure))
  let m1 := trimChars (replaceFirst jlMatch m0)
  trimChars (replaceFirst ttoMatch m1)

/-- Lines 262-303, one loop iteration: the rows produced for one failure
block.  When the weak shape matches, one structured row is pushed per match
of the capturing pattern (zero rows if the capturing pattern never
matches); otherwise a single spanning row with the fallback message.  (The
`else` branch at lines 273-279 is dead code: `matchAll` always returns a
truthy iterator.) -/
def rowsOf (failure : List Char) : List Row :=
  if hasWeak failure then
    (matchAllStrong failure).map
      (fun m => Row.structured (msgOrDefault m.g2) m.g3 m.g4)
  else
    [Row.spanning (fallbackMsg failure)]

/-- Line 271, `replace(/(?:\r\n|\r|\n)/g, '<br>')`. -/
def brify : List Char → List Char
  | [] => []
  | '\r' :: '\n' :: rest => ("<br>").data ++ brify rest
  | '\r' :: rest => ("<br>").data ++ brify rest
  | '\n' :: rest => ("<br>").data ++ brify rest
  | c :: rest => c :: brify rest

/-- The HTML rendering of one row (lines 271 and 299): structured rows trim
the captures and convert embedded line breaks to `<br>`. -/
def htmlRow : Row → List Char
  | Row.structured msg e a =>
    ("<tr><td>").data ++ msg ++ ("</td><td>").data ++ brify (trimChars e)
      ++ ("</td><td>").data ++ brify (trimChars a) ++ ("</td></tr>").data
  | Row.spanning content =>
    ("<tr><td colspan=\"3\">").data ++ content ++ ("</td></tr>").data

/-- Lines 257-306: the complete HTML failure table. -/
def htmlTableOf (failures : List (List Char)) : List Char :=
  ("<table><thead><tr><th>Message</th><th>Expected</th><th>Actual</th></tr></thead><tbody>").data
    ++ failures.foldl (fun acc f => acc ++ (rowsOf f).foldl (fun a r => a ++ htmlRow r) []) []
    ++ ("</tbody></table>").data

/-!
Scoring (`main.js` lines 231-238) and the result payloads.
-/

/-- JS `+x.toFixed(2)`: round to 2 decimal places, ties toward +infinity
(the ECMA-262 `toFixed` rule, applied to the exact rational value). -/
def round2 (q : ℚ) : ℚ := ((⌊q * 100 + 1 / 2⌋ : ℤ) : ℚ) / 100

/-- Lines 231-238: with partial credit the score is the passed fraction of
the maximum, rounded to 2 decimals; without it the error path always awards
0. -/
def scoreFor (t e : Nat) (m : ℚ) (pc : Bool) : ℚ :=
  match pc with
  | true => round2 (((t : ℚ) - (e : ℚ)) / (t : ℚ) * m)
  | false => 0

/-- The engine's configuration, from `getInputs` (the spawn timeout is
plumbing for the external process calls and is never read by the parsing
and scoring logic). -/
structure Inputs where
  testName : String
  testClasses : List String
  setupCommand : String
  maxScore : ℚ
  libFolder : String
  partCredit : Bool
deriving DecidableEq

/-- One entry of the `tests` array of the result payload.  A `score` of
`none` means the `score` key is absent from the emitted object. -/
structure TestEntry where
  name : String
  status : String
  message : String
  test_code : String
  filename : String
  line_no : Nat
  execution_time : Nat
  score : Option ℚ
deriving DecidableEq

/-- The result payload handed to `core.setOutput` (before the outer base64
encoding of the serialized JSON). -/
structure Payload where
  version : Nat
  status : String
  max_score : ℚ
  markdown : String
  tests : List TestEntry
deriving DecidableEq

/-- Base64 transport encoding, modelled as the identity on the encoded
content (it is injective and no property below depends on the encoding
itself). -/
def btoa (s : String) : String := s

/-- Decimal rendering of a number in log/markdown text.  The exact JS
number-to-string formatting is immaterial to every property below; scores
are rendered as exact fractions. -/
def qStr (q : ℚ) : String :=
  toString q.num ++ (if q.den = 1 then "" else "/" ++ toString q.den)

/-- JS `inputs.testName || 'Unknown Test'`. -/
def orUnknownTest (s : String) : String := if s = "" then "Unknown Test" else s

/-- JS `cmd || 'Unknown Command'`. -/
def orUnknownCmd (s : String) : String := if s = "" then "Unknown Command" else s

/-- Line 23: the external run command. -/
def runCommandOf (inp : Inputs) : String :=
  "java -cp \"" ++ inp.libFolder ++ "/*:.\" org.junit.runner.JUnitCore "
    ++ String.intercalate (" ") inp.testClasses

/-- Line 22: the external build command. -/
def buildCommandOf (inp : Inputs) : String :=
  "javac -cp \"" ++ inp.libFolder ++ "/*\" -d . *.java"

/-- Lines 43-65: markdown body of the setup-failure report. -/
def setupMarkdown (inp : Inputs) (errMsg : String) (so se : Option String) : String :=
  ":x: Error running setup command\n\nThis is probably something that your teacher needs to fix\n\n```shell\n"
    ++ inp.setupCommand ++ "\n```\n\nError: " ++ errMsg
    ++ (match so with
        | some s => "\n\nstdout:\n\n```\n" ++ s ++ "\n```\n\n"
        | none => "")
    ++ (match se with
        | some s => "\n\nstderr:\n\n```\n" ++ s ++ "\n```\n\n"
        | none => "")

/-- Lines 68-82: the setup-failure payload. -/
def setupErrorPayload (inp : Inputs) (errMsg : String) (so se : Option String) : Payload :=
  { version := 1
    status := "error"
    max_score := inp.maxScore
    markdown := btoa (setupMarkdown inp errMsg so se)
    tests := [{ name := orUnknownTest inp.testName
                status := "error"
                message := "Error running setup command, see "
                  ++ orUnknownTest inp.testName ++ " above for more details"
                test_code := orUnknownCmd inp.setupCommand
                filename := ""
                line_no := 0
                execution_time := 0
                score := none }] }

/-- The `setup` step (lines 34-94): a payload is emitted only when a setup command
is configured and spawning it reports an error (`rs.error`, with its
message and the captured streams when present). -/
def setupResult (inp : Inputs) (errMsg : Option String) (so se : Option String) :
    Option Payload :=
  if inp.setupCommand = "" then none
  else
    match errMsg with
    | none => none
    | some msg => some (setupErrorPayload inp msg so se)

/-- Lines 113-131: markdown body of the build-failure report. -/
def buildMarkdown (so se : String) : String :=
  ":x: Error building Java code\n\n"
    ++ (if so = "" then "" else "```\n" ++ String.mk (trimChars so.data) ++ "\n```\n\n")
    ++ (if se = "" then "" else "```\n" ++ String.mk (trimChars se.data) ++ "\n```\n\n")

/-- Lines 134-148: the build-failure payload. -/
def buildErrorPayload (inp : Inputs) (so se : String) : Payload :=
  { version := 1
    status := "error"
    max_score := inp.maxScore
    markdown := btoa (buildMarkdown so se)
    tests := [{ name := orUnknownTest inp.testName
                status := "error"
                message := "Error building submitted code, see "
                  ++ orUnknownTest inp.testName ++ " above for more details"
                test_code := orUnknownCmd (buildCommandOf inp)
                filename := ""
                line_no := 0
                execution_time := 0
                score := none }] }

/-- The `build` step (lines 101-155): a payload is emitted only when the build
command exits with an error, carrying its captured streams. -/
def buildResult (inp : Inputs) (buildFailed : Bool) (so se : String) : Option Payload :=
  match buildFailed with
  | true => some (buildErrorPayload inp so se)
  | false => none

/-- Lines 174-196: the all-tests-passed payload. -/
def passMarkdown (dots : List Char) : String :=
  "✅ " ++ toString dots.length ++ " test"
    ++ (if dots.length > 1 then "s" else "") ++ " passed"

/-- Lines 179-196: the success payload: status `pass`, full score. -/
def passPayload (inp : Inputs) (dots : List Char) : Payload :=
  { version := 1
    status := "pass"
    max_score := inp.maxScore
    markdown := btoa (passMarkdown dots)
    tests := [{ name := orUnknownTest inp.testName
                status := "pass"
                message := "Tests passed"
                test_code := orUnknownCmd (runCommandOf inp)
                filename := ""
                line_no := 0
                execution_time := 0
                score := some inp.maxScore }] }

/-- Lines 240-247: the console/markdown header of the failing-run report. -/
def failHeader (t e : Nat) (sc m : ℚ) : String :=
  if t = e then
    ":x: All " ++ toString t ++ " tests failed (0 of " ++ qStr m ++ " points)\n\n"
  else
    ":x: " ++ toString e ++ " of " ++ toString t ++ " tests failed ("
      ++ qStr sc ++ " of " ++ qStr m ++ " points)\n\n"

/-- Lines 310-316: the trailing stderr section of the failing-run report. -/
def stderrSection (se : String) : String :=
  if se = "" then ""
  else "\n\nError Output:\n\n```\n" ++ String.mk (trimChars se.data) ++ "\n```\n\n"

/-- Lines 219-318: the complete markdown body of the failing-run report. -/
def failMarkdown (t e : Nat) (sc m : ℚ) (failures : List (List Char)) (se : String) :
    String :=
  failHeader t e sc m ++ String.mk (htmlTableOf failures) ++ stderrSection se

/-- Lines 203-320: the failing-run payload, for parsed test count `t` and
failure count `e` over the trimmed stdout `so`. -/
def failPayload (inp : Inputs) (so : List Char) (t e : Nat) (se : String) : Payload :=
  { version := 1
    status := "error"
    max_score := inp.maxScore
    markdown := btoa (failMarkdown t e (scoreFor t e inp.maxScore inp.partCredit)
      inp.maxScore ((splitHeaders so).drop 1) se)
    tests := [{ name := orUnknownTest inp.testName
                status := "error"
                message := "Error running tests, see "
                  ++ orUnknownTest inp.testName ++ " above for more details"
                test_code := orUnknownCmd (runCommandOf inp)
                filename := ""
                line_no := 0
                execution_time := 0
                score := some (scoreFor t e inp.maxScore inp.partCredit) }] }

/-- The `run` step (lines 157-325).  On a zero exit the marker line is extracted
from the raw stdout and the success payload is emitted; an extraction
failure is the uncaught `TypeError` of line 172.  On a non-zero exit the
trimmed stdout is parsed; any of the three possible uncaught `TypeError`s
of lines 225-229 yields no payload at all. -/
def runResult (inp : Inputs) (exitOk : Bool) (stdout stderr : String) :
    Option Payload :=
  match exitOk with
  | true =>
    match extractDots stdout.data with
    | none => none
    | some dots => some (passPayload inp dots)
  | false =>
    match parseCounts (trimChars stdout.data) with
    | none => none
    | some (t, e) => some (failPayload inp (trimChars stdout.data) t e stderr)

/-- The failure count a run reports: 0 on the success path (no failure is
parsed there), the parsed failure-glyph count on the error path. -/
def failedTestsOf (exitOk : Bool) (stdout : String) : Nat :=
  match exitOk with
  | true => 0
  | false =>
    match parseCounts (trimChars stdout.data) with
    | some (_, e) => e
    | none => 0

/-!
Configuration splitting (`getInputs`, line 15):

  `core.getInput('test-class', { required: true }).split('\s*,\s*  ')`

The argument of `split` is a plain string literal, not a regex; in a JS
string literal `'\s'` is just `'s'`, so the separator is the literal
character sequence `s*,s*␣␣`.
-/

/-- Index of the first occurrence of `sep` in the input (`sep` nonempty). -/
def findSeqIdx (sep : List Char) : List Char → Option Nat
  | [] => none
  | c :: rest =>
    if sep.isPrefixOf (c :: rest) then some 0
    else (findSeqIdx sep rest).map Nat.succ

/-- JS `String.prototype.split` with a nonempty string separator.  Fuel
`length + 1` is always sufficient: each step consumes at least one
character of the input. -/
def jsSplitAux (sep : List Char) : Nat → List Char → List (List Char)
  | 0, l => [l]
  | fuel + 1, l =>
    match findSeqIdx sep l with
    | none => [l]
    | some i => l.take i :: jsSplitAux sep fuel (l.drop (i + sep.length))

/-- JS `String.prototype.split` with a string separator. -/
def jsSplit (sep l : List Char) : List (List Char) :=
  jsSplitAux sep (l.length + 1) l

/-- Line 15: the list of test classes obtained from the `test-class`
input. -/
def testClassesOf (raw : String) : List String :=
  (jsSplit (("s*,s*  ").data) raw.data).map String.mk

/-!
General lemmas about the embedded definitions.
-/

/-- Over a marker line consisting only of pass and failure glyphs, the two
glyph counts partition the line. -/
theorem countDot_add_countE (l : List Char)
    (h : ∀ c ∈ l, c = '.' ∨ c = 'E' ∨ c = 'e') :
    countDot l + countE l = l.length := by
  induction l with
  | nil => rfl
  | cons c t ih =>
    have hc := h c (by simp)
    have ih2 := ih (fun x hx => h x (by simp [hx]))
    unfold countDot countE at ih2 ⊢
    rw [List.countP_cons, List.countP_cons, List.length_cons]
    rcases hc with h1 | h1 | h1 <;> subst h1 <;> simp <;> omega

/-- A successful parse always carries a positive test count and a positive
failure count (either count being zero is an uncaught throw). -/
theorem parseCounts_pos (l : List Char) (t e : Nat)
    (h : parseCounts l = some (t, e)) : 0 < t ∧ 0 < e := by
  unfold parseCounts at h
  split at h
  · simp at h
  · split at h
    · simp at h
    · split at h
      · simp at h
      · have ht := congrArg Prod.fst (Option.some.inj h)
        have he := congrArg Prod.snd (Option.some.inj h)
        simp at ht he
        omega

/-- Rounding preserves nonnegativity. -/
theorem round2_nonneg (x : ℚ) (hx : 0 ≤ x) : 0 ≤ round2 x := by
  unfold round2
  have h : (0 : ℤ) ≤ ⌊x * 100 + 1 / 2⌋ := by
    apply Int.le_floor.mpr
    push_cast
    linarith
  exact div_nonneg (by exact_mod_cast h) (by norm_num)

/-- Rounding to cents never exceeds a whole-cent bound. -/
theorem round2_le_cents (x : ℚ) (M : ℤ) (hx : x ≤ (M : ℚ) / 100) :
    round2 x ≤ (M : ℚ) / 100 := by
  unfold round2
  have h1 : x * 100 ≤ (M : ℚ) := (le_div_iff₀ (by norm_num)).mp hx
  have h2 : ⌊x * 100 + 1 / 2⌋ ≤ M := by
    have h3 : x * 100 + 1 / 2 < ((M + 1 : ℤ) : ℚ) := by push_cast; linarith
    have h4 := Int.floor_lt.mpr h3
    omega
  have h5 : ((⌊x * 100 + 1 / 2⌋ : ℤ) : ℚ) ≤ (M : ℚ) := by exact_mod_cast h2
  linarith

/-!
Claim C1: marker-line length vs. parsed test count.
-/

/-- A well-formed runner output whose marker line is `..E.E` (length 5,
two failure glyphs). -/
def c1stdout : String := "JUnit version 4.13.2\n..E.E\nTime: 0.021"

/-- Claim C1 counterexample: on a marker line of length 5 with 2 failure
glyphs, the parser reports a total test count of 3 (the number of pass
glyphs), not 5 (the length of the marker line). -/
theorem marker_length_is_not_total_tests :
    extractDots c1stdout.data = some (("..E.E").data) ∧
    (("..E.E").data).length = 5 ∧
    countE (("..E.E").data) = 2 ∧
    parseCounts c1stdout.data = some (3, 2) ∧
    ¬ (3 : Nat) = 5 := by
  refine ⟨by decide, by decide, by decide, by decide, by decide⟩

/-- Claim C1 (amended): for every runner output whose marker line consists
of pass and (case-insensitive) failure glyphs with at least one of each,
parsing yields `failedTests = k` (the failure-glyph count) and
`totalTests = N - k` (the pass-glyph count), not `N`. -/
theorem parse_counts_pass_and_failure_glyphs (l dots : List Char)
    (hex : extractDots l = some dots)
    (halpha : ∀ c ∈ dots, c = '.' ∨ c = 'E' ∨ c = 'e')
    (hd : 0 < countDot dots) (he : 0 < countE dots) :
    parseCounts l = some (dots.length - countE dots, countE dots) := by
  have hsum := countDot_add_countE dots halpha
  have h1 : ¬ countDot dots = 0 := by omega
  have h2 : ¬ countE dots = 0 := by omega
  unfold parseCounts
  rw [hex]
  simp [h1, h2]
  omega

/-- Witness for the amended claim C1 at the concrete output `c1stdout`. -/
theorem parse_counts_pass_and_failure_glyphs_witness :
    parseCounts c1stdout.data
      = some ((("..E.E").data).length - countE (("..E.E").data),
              countE (("..E.E").data)) :=
  parse_counts_pass_and_failure_glyphs c1stdout.data (("..E.E").data)
    (by decide) (by decide) (by decide) (by decide)

/-!
Claim C2: the partial-credit score formula and the `..E.E` scenario.
-/

/-- Configuration of the end-to-end scenario: partial credit enabled,
maximum score 10. -/
def c2inp : Inputs :=
  { testName := "JUnit tests"
    testClasses := ["SampleTest"]
    setupCommand := ""
    maxScore := 10
    libFolder := "lib"
    partCredit := true }

/-- A failing run whose marker line is `..E.E`. -/
def c2stdout : String :=
  "JUnit version 4.13.2\n..E.E\nTime: 0.05\nFAILURES!!!\nTests run: 5,  Failures: 2\n"

/-- Claim C2 counterexample: for the `..E.E` scenario with partial credit
and `maxScore = 10` the engine awards 3.33 (it parses 3 total tests and 2
failures), not the 6.00 the claim requires. -/
theorem scenario_dotdotEdotE_awards_3_33 :
    (runResult c2inp false c2stdout ("")).map (fun p => p.tests.map TestEntry.score)
      = some [some ((333 : ℚ) / 100)] ∧
    ¬ ((333 : ℚ) / 100 = 6) := by
  constructor
  · have h : runResult c2inp false c2stdout ("")
        = some (failPayload c2inp (trimChars c2stdout.data) 3 2 ("")) := by rfl
    rw [h]
    have hfl : (⌊(((3 : ℚ) - 2) / 3 * 10) * 100 + 1 / 2⌋ : ℤ) = 333 := by
      have harg : (((3 : ℚ) - 2) / 3 * 10) * 100 + 1 / 2 = 2003 / 6 := by norm_num
      rw [harg, Int.floor_eq_iff]
      constructor <;> norm_num
    simp [failPayload, scoreFor, round2, c2inp, hfl]
    norm_num
  · norm_num

/-- Claim C2 (amended): with partial credit enabled, the awarded score on
the error path is `round2((t - e) / t * maxScore)` where `t` and `e` are
the parsed pass-glyph and failure-glyph counts (for `..E.E` this gives
`round2(1/3 * 10) = 3.33`). -/
theorem prorated_score_formula (inp : Inputs) (stdout stderr : String) (t e : Nat)
    (hpc : inp.partCredit = true)
    (hc : parseCounts (trimChars stdout.data) = some (t, e)) :
    (runResult inp false stdout stderr).map (fun p => p.tests.map TestEntry.score)
      = some [some (round2 (((t : ℚ) - (e : ℚ)) / (t : ℚ) * inp.maxScore))] := by
  unfold runResult
  rw [hc]
  simp [failPayload, scoreFor, hpc]

/-- Witness for the amended claim C2 at the `..E.E` scenario. -/
theorem prorated_score_formula_witness :
    (runResult c2inp false c2stdout ("")).map (fun p => p.tests.map TestEntry.score)
      = some [some (round2 (((3 : ℚ) - (2 : ℚ)) / (3 : ℚ) * c2inp.maxScore))] :=
  prorated_score_formula c2inp c2stdout ("") 3 2 rfl (by decide)

/-!
Claim C3: the empty-stdout error path.
-/

/-- Configuration of the empty-stdout scenario. -/
def c3inp : Inputs :=
  { testName := "JUnit tests"
    testClasses := ["SampleTest"]
    setupCommand := ""
    maxScore := 10
    libFolder := "lib"
    partCredit := true }

/-- Claim C3: a test run that exits non-zero with empty stdout produces no
payload at all — the summary regex does not match, `match[2]` throws an
uncaught `TypeError` inside the catch block, and `core.setOutput` is never
reached, so the sink receives nothing (contradicting the requirement that
every error path emit exactly one report). -/
theorem empty_stdout_emits_no_report :
    runResult c3inp false ("") ("java.lang.NoClassDefFoundError: SampleTest") = none := by
  rfl

/-!
Claim C4: zero detected tests and the score.

Test counts are only ever parsed on the error path (non-zero exit); there
zero detected tests throw before any score exists.  On a zero exit the
code never counts tests at all, so a zero-test run that exits 0 is
reported as a pass with the full score — the counterexample below.
-/

/-- Claim C4 (amended): on the error path (non-zero exit), whenever the
marker line is found but contains zero pass glyphs (zero detected tests),
the parse throws before any score is computed and emits no payload — in
particular it never reports a score of 0 or of `maxScore` there. -/
theorem zero_tests_detected_yield_no_score (inp : Inputs) (stdout stderr : String)
    (dots : List Char)
    (hex : extractDots (trimChars stdout.data) = some dots)
    (hzero : countDot dots = 0) :
    runResult inp false stdout stderr = none := by
  have hp : parseCounts (trimChars stdout.data) = none := by
    unfold parseCounts
    rw [hex]
    simp [hzero]
  simp [runResult, hp]

/-- Configuration of the zero-test scenario (partial credit enabled). -/
def c4inp : Inputs :=
  { testName := "JUnit tests"
    testClasses := ["SampleTest"]
    setupCommand := ""
    maxScore := 10
    libFolder := "lib"
    partCredit := true }

/-- A runner output whose marker line `EE` contains no pass glyph. -/
def c4stdout : String := "JUnit version 4.13.2\nEE\nTime: 0.01"

/-- Witness for claim C4 at the concrete all-failure output `c4stdout`. -/
theorem zero_tests_detected_yield_no_score_witness :
    runResult c4inp false c4stdout ("") = none :=
  zero_tests_detected_yield_no_score c4inp c4stdout ("") (("EE").data)
    (by decide) (by decide)

/-- A zero-test run as JUnitCore reports it: exit code 0, an empty marker
line after the version line. -/
def c4zeroStdout : String := "JUnit version 4.13.2\n\nTime: 0.001\n\nOK (0 tests)\n"

/-- Claim C4 counterexample: zero tests detected after a non-crashing exit
(exit code 0, empty marker line) does not fail — the success path never
counts tests, emits a `pass` payload, and awards the full `maxScore`,
contradicting the claim that such a run never reports a score of 0 or
`maxScore`. -/
theorem zero_tests_on_success_path_score_full :
    extractDots c4zeroStdout.data = some [] ∧
    runResult c4inp true c4zeroStdout ("") = some (passPayload c4inp []) ∧
    (passPayload c4inp []).status = "pass" ∧
    (passPayload c4inp []).tests.map TestEntry.score = [some c4inp.maxScore] ∧
    c4inp.maxScore = 10 := by
  refine ⟨by decide, rfl, rfl, rfl, rfl⟩

/-!
Claim C5: clamping of the awarded score.
-/

/-- Configuration of the negative-score scenario. -/
def c5inp : Inputs :=
  { testName := "JUnit tests"
    testClasses := ["SampleTest"]
    setupCommand := ""
    maxScore := 10
    libFolder := "lib"
    partCredit := true }

/-- A runner output whose marker line `.EE` has more failure glyphs than
pass glyphs. -/
def c5stdout : String := "JUnit version 4.13.2\n.EE\nTime: 0.01"

/-- Claim C5 counterexample: the engine performs no clamping; on the marker
line `.EE` (1 parsed test, 2 parsed failures) with partial credit and
`maxScore = 10` it awards -10, which is below 0. -/
theorem awarded_score_can_be_negative :
    (runResult c5inp false c5stdout ("")).map (fun p => p.tests.map TestEntry.score)
      = some [some ((-10 : ℚ))] ∧
    ¬ ((0 : ℚ) ≤ (-10 : ℚ)) := by
  constructor
  · have h : runResult c5inp false c5stdout ("")
        = some (failPayload c5inp (trimChars c5stdout.data) 1 2 ("")) := by rfl
    rw [h]
    have hfl : (⌊(((1 : ℚ) - 2) / 1 * 10) * 100 + 1 / 2⌋ : ℤ) = -1000 := by
      have harg : (((1 : ℚ) - 2) / 1 * 10) * 100 + 1 / 2 = -1999 / 2 := by norm_num
      rw [harg, Int.floor_eq_iff]
      constructor <;> norm_num
    simp [failPayload, scoreFor, round2, c5inp, hfl]
    norm_num
  · norm_num

/-- Claim C5 (amended): the awarded score lies in `[0, maxScore]` whenever
the parsed failure count does not exceed the parsed test count, the test
count is positive and `maxScore` is a nonnegative whole number of cents;
no clamping is performed by the code, and the bound fails when the failure
glyphs outnumber the pass glyphs. -/
theorem score_in_range_for_wellformed_counts (t e : Nat) (M : ℤ) (pc : Bool)
    (ht : 0 < t) (hte : e ≤ t) (hM : 0 ≤ M) :
    0 ≤ scoreFor t e ((M : ℚ) / 100) pc ∧
      scoreFor t e ((M : ℚ) / 100) pc ≤ (M : ℚ) / 100 := by
  have hm0 : (0 : ℚ) ≤ (M : ℚ) / 100 :=
    div_nonneg (by exact_mod_cast hM) (by norm_num)
  cases pc with
  | false => exact ⟨le_refl 0, hm0⟩
  | true =>
    have htq : (0 : ℚ) < (t : ℚ) := by exact_mod_cast ht
    have hteq : (e : ℚ) ≤ (t : ℚ) := by exact_mod_cast hte
    have hx0 : 0 ≤ ((t : ℚ) - (e : ℚ)) / (t : ℚ) * ((M : ℚ) / 100) := by
      apply mul_nonneg _ hm0
      apply div_nonneg _ (le_of_lt htq)
      linarith
    have hx1 : ((t : ℚ) - (e : ℚ)) / (t : ℚ) ≤ 1 := by
      rw [div_le_one htq]
      linarith
    have hxm : ((t : ℚ) - (e : ℚ)) / (t : ℚ) * ((M : ℚ) / 100) ≤ (M : ℚ) / 100 :=
      mul_le_of_le_one_left hm0 hx1
    exact ⟨round2_nonneg _ hx0, round2_le_cents _ M hxm⟩

/-- Witness for the amended claim C5 at `t = 5`, `e = 2`, `maxScore = 10`
(1000 cents), partial credit enabled. -/
theorem score_in_range_for_wellformed_counts_witness :
    0 ≤ scoreFor 5 2 ((1000 : ℤ) / 100 : ℚ) true ∧
      scoreFor 5 2 ((1000 : ℤ) / 100 : ℚ) true ≤ ((1000 : ℤ) / 100 : ℚ) := by
  have h := score_in_range_for_wellformed_counts 5 2 1000 true
    (by decide) (by decide) (by decide)
  exact h

/-!
Claim C6: all-or-nothing scoring without partial credit.
-/

/-- Claim C6: with partial credit disabled, every emitted run payload
carries a score that is `maxScore` exactly when the run reports zero
failures (the success path) and 0 otherwise — never an intermediate
value.  (On the error path a payload is only emitted when at least one
failure glyph was parsed.) -/
theorem all_or_nothing_without_credit (inp : Inputs) (exitOk : Bool)
    (stdout stderr : String)
    (hpc : inp.partCredit = false) :
    (runResult inp exitOk stdout stderr).map (fun p => p.tests.map TestEntry.score)
      = (runResult inp exitOk stdout stderr).map
          (fun _ => [some (if failedTestsOf exitOk stdout = 0 then inp.maxScore else 0)]) := by
  cases exitOk with
  | true =>
    unfold runResult failedTestsOf
    cases hx : extractDots stdout.data with
    | none => simp
    | some dots => simp [passPayload]
  | false =>
    unfold runResult failedTestsOf
    cases hx : parseCounts (trimChars stdout.data) with
    | none => simp
    | some te =>
      obtain ⟨t, e⟩ := te
      have he := (parseCounts_pos _ _ _ hx).2
      have hne : ¬ e = 0 := by omega
      simp [failPayload, scoreFor, hpc, hne]

/-- Configuration with partial credit disabled. -/
def c6inp : Inputs :=
  { testName := "JUnit tests"
    testClasses := ["SampleTest"]
    setupCommand := ""
    maxScore := 10
    libFolder := "lib"
    partCredit := false }

/-- A fully passing run (marker line `..`). -/
def c6stdout : String := "JUnit version 4.13.2\n..\nTime: 0.01\n\nOK (2 tests)\n"

/-- Witness for claim C6 at a concrete passing run. -/
theorem all_or_nothing_without_credit_witness :
    (runResult c6inp true c6stdout ("")).map (fun p => p.tests.map TestEntry.score)
      = (runResult c6inp true c6stdout ("")).map
          (fun _ => [some (if failedTestsOf true c6stdout = 0 then c6inp.maxScore else 0)]) :=
  all_or_nothing_without_credit c6inp true c6stdout ("") rfl

/-!
Claim C7: classification of structured (expected/actual) failure blocks.
-/

/-- The synthetic structured failure block of the claim. -/
def c7block : String := "ComparisonFailure: msg expected:<A> but was:<B>"

/-- Claim C7: a failure block matching the structured pattern yields one
structured record per match, whose message is the trimmed text between the
exception kind and `expected` (falling back to the literal `Test failed`
when that text trims to empty) and whose expected/actual fields are the
captured groups — trimmed, with line breaks turned into `<br>`, in the
HTML rendering that enters the report.  In particular the synthetic block
yields exactly the record `(msg, A, B)`. -/
theorem structured_failure_classification :
    (∀ f : List Char, hasWeak f = true →
        rowsOf f = (matchAllStrong f).map
          (fun m => Row.structured (msgOrDefault m.g2) m.g3 m.g4)) ∧
    matchAllStrong c7block.data = [⟨(" msg ").data, ("A").data, ("B").data⟩] ∧
    msgOrDefault ((" msg ").data) = ("msg").data ∧
    msgOrDefault (("   ").data) = ("Test failed").data ∧
    rowsOf c7block.data
      = [Row.structured (("msg").data) (("A").data) (("B").data)] ∧
    htmlRow (Row.structured (("msg").data) ((" A\nB ").data) (("C").data))
      = ("<tr><td>msg</td><td>A<br>B</td><td>C</td></tr>").data := by
  refine ⟨?_, by decide, by decide, by decide, by decide, by decide⟩
  intro f h
  unfold rowsOf
  simp [h]

/-- Witness for claim C7 at the synthetic structured block. -/
theorem structured_failure_classification_witness :
    rowsOf c7block.data = (matchAllStrong c7block.data).map
      (fun m => Row.structured (msgOrDefault m.g2) m.g3 m.g4) :=
  structured_failure_classification.1 c7block.data (by decide)

/-!
Claim C8: classification of unstructured failure blocks.
-/

/-- A block that matches the weak expected/actual shape but not the full
capturing pattern (no recognized exception kind). -/
def c8weak : String := "should be two expected :<1> but was :<3>"

/-- Claim C8 counterexample: this block does not match the structured
pattern (the capturing regex finds nothing), yet the classifier produces
zero records for it, not exactly one unstructured record — the fallback
only runs when the weak expected/actual shape is absent altogether. -/
theorem weak_shape_without_kind_yields_no_rows :
    hasWeak c8weak.data = true ∧
    matchAllStrong c8weak.data = [] ∧
    rowsOf c8weak.data = [] := by
  refine ⟨by decide, by decide, by decide⟩

/-- An unstructured block with a `java.lang.` exception prefix. -/
def c8jl : String :=
  "java.lang.NullPointerException: boom\n\tat Example.check(Example.java:7)"

/-- An unstructured block with the timeout wrapper exception prefix. -/
def c8tto : String :=
  "org.junit.runners.model.TestTimedOutException: test timed out after 5000 milliseconds"

/-- An unstructured block with a non-`java.lang.` exception prefix. -/
def c8other : String := "com.example.CustomFailure: still shown with its class name"

/-- Claim C8 (amended): a failure block with no occurrence of the weak
expected/actual shape yields exactly one unstructured record whose message
is the first line of the trimmed block, trimmed, with a case-insensitive
`java.lang.`-prefixed class name (through the last colon on the line) and
the `TestTimedOutException:` wrapper prefix removed; other fully-qualified
exception prefixes are kept, and a block matching the weak shape but not
the capturing pattern yields no record at all. -/
theorem fallback_single_spanning_row :
    (∀ f : List Char, hasWeak f = false →
        rowsOf f = [Row.spanning (fallbackMsg f)]) ∧
    fallbackMsg c8jl.data = ("boom").data ∧
    fallbackMsg c8tto.data = ("test timed out after 5000 milliseconds").data ∧
    fallbackMsg c8other.data = c8other.data := by
  refine ⟨?_, by decide, by decide, by decide⟩
  intro f h
  unfold rowsOf
  simp [h]

/-- Witness for the amended claim C8 at the `java.lang.` block. -/
theorem fallback_single_spanning_row_witness :
    rowsOf c8jl.data = [Row.spanning (fallbackMsg c8jl.data)] :=
  fallback_single_spanning_row.1 c8jl.data (by decide)

/-!
Claim C9: splitting of the `test-class` configuration input.
-/

/-- Claim C9: the `test-class` input is split on the literal character
sequence `s*,s*␣␣` (the intended regex written as a plain string), so a
comma-separated list is not split at all and no whitespace is trimmed;
only inputs containing that literal text are split. -/
theorem test_class_split_uses_literal_separator :
    testClassesOf ("FooTest, BarTest") = ["FooTest, BarTest"] ∧
    ¬ testClassesOf ("FooTest, BarTest") = ["FooTest", "BarTest"] ∧
    testClassesOf ("ATests*,s*  BTest") = ["ATest", "BTest"] := by
  refine ⟨by decide, by decide, by decide⟩

/-!
Claim C10: shape of every emitted payload.
-/

/-- Claim C10: every payload any stage emits — setup failure, build
failure, passing run or failing run — has `version = 1` and exactly one
entry in its `tests` array. -/
theorem every_payload_versioned_single_entry
    (inp : Inputs) (eMsg : Option String) (sso sse : Option String)
    (bFailed : Bool) (bso bse : String) (exitOk : Bool) (rso rse : String)
    (p : Payload)
    (h : setupResult inp eMsg sso sse = some p ∨
         buildResult inp bFailed bso bse = some p ∨
         runResult inp exitOk rso rse = some p) :
    p.version = 1 ∧ p.tests.length = 1 := by
  rcases h with h | h | h
  · unfold setupResult at h
    by_cases hs : inp.setupCommand = ""
    · rw [if_pos hs] at h
      simp at h
    · rw [if_neg hs] at h
      cases eMsg with
      | none => simp at h
      | some m =>
        simp at h
        subst h
        exact ⟨rfl, rfl⟩
  · cases bFailed with
    | false => simp [buildResult] at h
    | true =>
      simp [buildResult] at h
      subst h
      exact ⟨rfl, rfl⟩
  · cases exitOk with
    | true =>
      simp only [runResult] at h
      cases hx : extractDots rso.data with
      | none => rw [hx] at h; simp at h
      | some dots =>
        rw [hx] at h
        simp at h
        subst h
        exact ⟨rfl, rfl⟩
    | false =>
      simp only [runResult] at h
      cases hx : parseCounts (trimChars rso.data) with
      | none => rw [hx] at h; simp at h
      | some te =>
        obtain ⟨t, e⟩ := te
        rw [hx] at h
        simp at h
        subst h
        exact ⟨rfl, rfl⟩

/-- Configuration for the payload-shape witness. -/
def c10inp : Inputs :=
  { testName := "Demo"
    testClasses := ["DemoTest"]
    setupCommand := ""
    maxScore := 10
    libFolder := "lib"
    partCredit := false }

/-- Witness for claim C10 at a concrete build failure. -/
theorem every_payload_versioned_single_entry_witness :
    (buildErrorPayload c10inp ("") ("")).version = 1 ∧
      (buildErrorPayload c10inp ("") ("")).tests.length = 1 :=
  every_payload_versioned_single_entry c10inp none none none true ("") ("")
    true ("") ("") (buildErrorPayload c10inp ("") (""))
    (Or.inr (Or.inl rfl))
